import Mathlib

/-!
Verification development for the unofficial-v0-api repository.

The repository drives a browser against v0.dev and exposes one HTTP
endpoint.  Two revisions of `api.ts` are present: the `src/api.ts`
revision (DOM-scrape extraction, 1-second poll interval, fallback
extraction probe) and an earlier revision (clipboard extraction,
5-second poll interval, no probe).  Both are embedded below.

String matching in the source is JavaScript `String.prototype.includes`
on lower-cased descriptions; we model it with an executable substring
check on character lists.
-/

namespace V0Api

/-- Predicate `charListStarts pat s` is true when `pat` is an initial segment of `s`. -/
def charListStarts : List Char → List Char → Bool
  | [], _ => true
  | _ :: _, [] => false
  | a :: as, b :: bs => a == b && charListStarts as bs

/-- Predicate `charListOccurs pat s` is true when `pat` occurs contiguously inside `s`. -/
def charListOccurs (pat : List Char) : List Char → Bool
  | [] => charListStarts pat []
  | b :: bs => charListStarts pat (b :: bs) || charListOccurs pat bs

/-- Model of JavaScript `s.includes(pat)`. -/
def containsStr (s pat : String) : Bool :=
  charListOccurs pat.toList s.toList

/-- Model of JavaScript `s.toLowerCase()` for the ASCII strings this
program matches against (kernel-reducible, unlike `String.toLower`). -/
def lowerStr (s : String) : String :=
  ⟨s.data.map Char.toLower⟩

/-- Model of JavaScript `s.trim()`: strip leading and trailing
whitespace (kernel-reducible, unlike `String.trim`). -/
def trimStr (s : String) : String :=
  ⟨((s.data.dropWhile Char.isWhitespace).reverse.dropWhile Char.isWhitespace).reverse⟩

/-- Model of JavaScript truthiness/emptiness of `s.trim()`:
`s.trim().length > 0` fails exactly when this is `true`. -/
def trimBlank (s : String) : Bool :=
  (trimStr s).data.isEmpty

/-- Shape `interface ObserveAction` with `description: string` and an
optional `selector: string`
(`src/api.ts` lines 31-34): a transient description of an interactive
element visible on the page. -/
structure ObserveAction where
  description : String
  selector : Option String
deriving DecidableEq, Repr

/-- Model of `action.selector?.includes(pat)` — JavaScript optional
chaining: `undefined` when the selector is absent, which is falsy. -/
def selectorHas (a : ObserveAction) (pat : String) : Bool :=
  match a.selector with
  | some s => containsStr s pat
  | none => false

/-- Constant `MAX_GENERATION_TIME = 180000` (milliseconds), `src/api.ts` line 10. -/
def MAX_GENERATION_TIME : Nat := 180000

/-- Error check of `waitForGeneration` (`src/api.ts` lines 119-122):
some action's lower-cased description includes `"error"` or `"failed"`. -/
def hasError (actions : List ObserveAction) : Bool :=
  actions.any fun action =>
    containsStr (lowerStr action.description) "error" ||
    containsStr (lowerStr action.description) "failed"

/-- Completion check of `waitForGeneration` (`src/api.ts` lines 128-136). -/
def isComplete (actions : List ObserveAction) : Bool :=
  actions.any fun action =>
    let desc := (lowerStr action.description)
    containsStr desc "copy code" ||
    containsStr desc "preview" ||
    containsStr desc "download" ||
    containsStr desc "save to project"

/-- Still-generating check of `waitForGeneration` (`src/api.ts` lines 143-150). -/
def isGenerating (actions : List ObserveAction) : Bool :=
  actions.any fun action =>
    let desc := (lowerStr action.description)
    containsStr desc "generating" ||
    containsStr desc "loading" ||
    containsStr desc "please wait"

/-- Outcome of one iteration of the polling loop body. -/
inductive PollOutcome where
  | failed
  | completed
  | pending
deriving DecidableEq, Repr

/-- One iteration of the `waitForGeneration` loop body of `src/api.ts`
(lines 116-167): the error check runs first (throw), then the completion
check (return true), then — only when no generating/loading marker is
present — the fallback extraction probe (`page.extract` asking whether
code is visible; `some b` models a returned `hasCode = b`, `none` models
the probe throwing, which is caught and ignored). -/
def classifyPoll (actions : List ObserveAction) (probe : Option Bool) : PollOutcome :=
  if hasError actions then .failed
  else if isComplete actions then .completed
  else if !isGenerating actions && (probe == some true) then .completed
  else .pending

/-- One iteration of the `waitForGeneration` loop body of the earlier
revision (clipboard variant, lines 116-140): error check first, then
completion check, no probe. -/
def classifyPollClip (actions : List ObserveAction) : PollOutcome :=
  if hasError actions then .failed
  else if isComplete actions then .completed
  else .pending

/-- Result of `waitForGeneration`: returning true, throwing
`Generation failed`, or throwing `Generation timed out`. -/
inductive GenResult where
  | Completed
  | Failed
  | TimedOut
deriving DecidableEq, Repr

/-- Function `waitForGeneration` of `src/api.ts` (lines 112-174), with time made
explicit: `obs t` is the observation fetched at elapsed time `t`,
`probe t` the fallback probe's answer at time `t`; each iteration ends
with a 1000 ms sleep (line 170).  Returns the outcome together with the
elapsed time at which the loop exits. -/
def waitForGenerationAux (obs : Nat → List ObserveAction) (probe : Nat → Option Bool)
    (elapsed : Nat) : GenResult × Nat :=
  if h : elapsed < MAX_GENERATION_TIME then
    match classifyPoll (obs elapsed) (probe elapsed) with
    | .failed => (.Failed, elapsed)
    | .completed => (.Completed, elapsed)
    | .pending => waitForGenerationAux obs probe (elapsed + 1000)
  else (.TimedOut, elapsed)
termination_by MAX_GENERATION_TIME - elapsed
decreasing_by simp [MAX_GENERATION_TIME] at *; omega

/-- Function `waitForGeneration` of the clipboard revision (lines 112-147):
5000 ms sleep between polls, no probe. -/
def waitForGenerationClipAux (obs : Nat → List ObserveAction)
    (elapsed : Nat) : GenResult × Nat :=
  if h : elapsed < MAX_GENERATION_TIME then
    match classifyPollClip (obs elapsed) with
    | .failed => (.Failed, elapsed)
    | .completed => (.Completed, elapsed)
    | .pending => waitForGenerationClipAux obs (elapsed + 5000)
  else (.TimedOut, elapsed)
termination_by MAX_GENERATION_TIME - elapsed
decreasing_by simp [MAX_GENERATION_TIME] at *; omega

/-- Entry point: elapsed time starts at zero (`startTime = Date.now()`). -/
def waitForGeneration (obs : Nat → List ObserveAction) (probe : Nat → Option Bool) :
    GenResult × Nat :=
  waitForGenerationAux obs probe 0

/-- Entry point for the clipboard revision. -/
def waitForGenerationClip (obs : Nat → List ObserveAction) : GenResult × Nat :=
  waitForGenerationClipAux obs 0

/-- File-tab search of the clipboard `extractCode` (earlier revision,
lines 167-171): the first action whose lower-cased description includes
`"tab"` and `"."` but not `"click"`. -/
def findFileTab (actions : List ObserveAction) : Option ObserveAction :=
  actions.find? fun action =>
    containsStr (lowerStr action.description) "tab" &&
    containsStr (lowerStr action.description) "." &&
    !containsStr (lowerStr action.description) "click"

/-- Filename resolution (earlier revision, line 173):
`fileTab ? fileTab.description.trim() : 'code.tsx'`. -/
def extractFilename (actions : List ObserveAction) : String :=
  match findFileTab actions with
  | some fileTab => trimStr fileTab.description
  | none => "code.tsx"

/-- Input to one attempt of the clipboard `extractCode`: the actions
observed during that attempt and the outcome of the copy+read cycle
(`Except.error` models any throw inside the `try` block, which the
`catch` swallows; `Except.ok c` models a successful clipboard read of
`c`). -/
def AttemptEnv : Type := (List ObserveAction) × Except Unit String

/-- Whether one attempt satisfies the non-empty check of line 184:
`clipboardContent && clipboardContent.trim().length > 0`. -/
def attemptOk (a : AttemptEnv) : Bool :=
  match a.2 with
  | .ok c => !trimBlank c
  | .error _ => false

/-- The retry loop of the clipboard `extractCode` (earlier revision,
lines 149-199): `while (attempts < maxAttempts)` with `maxAttempts = 5`,
rendered as structural recursion on `remaining = maxAttempts - attempts`.
A successful attempt returns the single-entry mapping
`{ [filename]: clipboardContent }`; a failed or throwing attempt sleeps
2000 ms (line 194) and retries; once the attempts are exhausted the
function throws.  Returns the result together with the total
milliseconds slept in the loop. -/
def extractCodeClipGo (env : Nat → AttemptEnv) (attempts remaining : Nat) :
    Except Unit (List (String × String)) × Nat :=
  match remaining with
  | 0 => (.error (), 0)
  | r + 1 =>
    match (env attempts).2 with
    | .ok clipboardContent =>
      if !trimBlank clipboardContent then
        (.ok [(extractFilename (env attempts).1, clipboardContent)], 0)
      else
        let rest := extractCodeClipGo env (attempts + 1) r
        (rest.1, rest.2 + 2000)
    | .error _ =>
      let rest := extractCodeClipGo env (attempts + 1) r
      (rest.1, rest.2 + 2000)

/-- Entry point of the clipboard extractor: `attempts` starts at 0,
`maxAttempts = 5` (line 151). -/
def extractCodeClip (env : Nat → AttemptEnv) : Except Unit (List (String × String)) × Nat :=
  extractCodeClipGo env 0 5

/-- One scraped `pre` element (`src/api.ts` lines 197-204):
`filename = data-filename attribute or ''`, `code = textContent or ''`. -/
structure CodeBlock where
  filename : String
  code : String
deriving DecidableEq, Repr

/-- Code-tab check of the DOM `extractCode` (`src/api.ts` lines 178-184):
description includes `"code"` and (selector includes the tabs class, or
selector includes `"span"`, or description includes `"tab"`). -/
def hasCodeTab (actions : List ObserveAction) : Bool :=
  actions.any fun action =>
    containsStr (lowerStr action.description) "code" &&
    (selectorHas action "@[17rem]/tabs:block" ||
     selectorHas action "span" ||
     containsStr (lowerStr action.description) "tab")

/-- JavaScript object insertion `files[key] = value`: first insertion
fixes the key's position, later assignments overwrite the value. -/
def upsert (files : List (String × String)) (key value : String) :
    List (String × String) :=
  match files with
  | [] => [(key, value)]
  | (k, v) :: rest =>
    if k == key then (k, value) :: rest else (k, v) :: upsert rest key value

/-- One iteration of the result-formatting loop of the DOM `extractCode`
(`src/api.ts` lines 208-212): keep a block only when its code is
non-blank (`block.code.trim()` truthy), keyed by
`block.filename || 'code.tsx'`. -/
def buildStep (files : List (String × String)) (block : CodeBlock) :
    List (String × String) :=
  if !trimBlank block.code then
    upsert files (if block.filename.isEmpty then "code.tsx" else block.filename)
      block.code
  else files

/-- Result formatting of the DOM `extractCode` (`src/api.ts` lines
206-212): fold the scraped blocks into the `files` record, starting
empty. -/
def buildFiles (result : List CodeBlock) : List (String × String) :=
  result.foldl buildStep []

/-- The DOM `extractCode` of `src/api.ts` (lines 176-215): throws when no
code tab is found, otherwise clicks the tab and returns the formatted
scrape of the page's `pre` elements (`blocks` is the `page.evaluate`
result). -/
def extractCodeDom (actions : List ObserveAction) (blocks : List CodeBlock) :
    Except Unit (List (String × String)) :=
  if hasCodeTab actions then .ok (buildFiles blocks)
  else .error ()

/-- Observable side effects relevant to the orchestration claims:
`save` is a `saveCookies(page)` call, `close` is `stagehand.close()`. -/
inductive Ev where
  | save
  | close
deriving DecidableEq, Repr

/-- Outcomes of the driver operations of one request, as seen by
`interactWithV0` and `checkAndLogin` (`src/api.ts` lines 52-101 and
217-268).  A `false` `...Ok` field means that operation throws.
`needsLogin1` is the login-marker check of the orchestrator's own
`page.observe` (lines 226-230); `needsLogin2` that of `checkAndLogin`'s
`page.observe` (lines 54-58); `stillNeedsLogin` the post-login
verification (lines 83-87); `credsConfigured` whether both
`GITHUB_EMAIL` and `GITHUB_PASSWORD` are set (line 68). -/
structure OrchEnv where
  initOk : Bool
  gotoOk : Bool
  observe1Ok : Bool
  needsLogin1 : Bool
  observe2Ok : Bool
  needsLogin2 : Bool
  actsOk : Bool
  credsConfigured : Bool
  observe3Ok : Bool
  stillNeedsLogin : Bool
  fillOk : Bool
  genClickOk : Bool
  pollOk : Bool
  extractOk : Bool
deriving DecidableEq, Repr

/-- Function `checkAndLogin` (`src/api.ts` lines 52-101): observe; if login
markers are present, click the sign-in affordances; if both credentials
are configured, fill and submit them, re-observe, and either save
cookies and return `true` (verification passed) or throw (login markers
still present); if credentials are missing, return `false` without
raising.  The returned list records the cookie saves performed. -/
def checkAndLogin (env : OrchEnv) : Except Unit Bool × List Ev :=
  if !env.observe2Ok then (.error (), [])
  else if env.needsLogin2 then
    if !env.actsOk then (.error (), [])
    else if env.credsConfigured then
      if !env.observe3Ok then (.error (), [])
      else if !env.stillNeedsLogin then (.ok true, [.save])
      else (.error (), [])
    else (.ok false, [])
  else (.ok false, [])

/-- Lines 226-234 of `interactWithV0`: observe, and call `checkAndLogin`
only when login markers are present (its Boolean result is discarded). -/
def authStep (env : OrchEnv) : Except Unit Bool × List Ev :=
  if env.needsLogin1 then checkAndLogin env else (.ok false, [])

/-- The `try` block of `interactWithV0` (`src/api.ts` lines 221-263):
goto, observe, optionally `checkAndLogin`, fill the prompt, click
Generate, `waitForGeneration`, `extractCode`, `saveCookies`, return. -/
def interactBody (env : OrchEnv) : Except Unit Unit × List Ev :=
  if !env.gotoOk then (.error (), [])
  else if !env.observe1Ok then (.error (), [])
  else
    match authStep env with
    | (.error e, evs) => (.error e, evs)
    | (.ok _, evs) =>
      if !env.fillOk then (.error (), evs)
      else if !env.genClickOk then (.error (), evs)
      else if !env.pollOk then (.error (), evs)
      else if !env.extractOk then (.error (), evs)
      else (.ok (), evs ++ [.save])

/-- The condition under which `checkAndLogin` reaches its cookie-saving
branch: login was required, credentials were configured, and the
post-login verification no longer saw login markers. -/
def loginVerified (env : OrchEnv) : Bool :=
  env.needsLogin1 && env.observe2Ok && env.needsLogin2 && env.actsOk &&
  env.credsConfigured && env.observe3Ok && !env.stillNeedsLogin

/-- Function `interactWithV0` (`src/api.ts` lines 217-268): `initStagehand` runs
before the `try` (its failure propagates with no `close`); the `finally`
closes the driver on every exit of the body, success or throw. -/
def interactWithV0 (env : OrchEnv) : Except Unit Unit × List Ev :=
  if !env.initOk then (.error (), [])
  else ((interactBody env).1, (interactBody env).2 ++ [.close])

/-- Request body as the route sees it: `malformed` covers a body that is
not an object or whose `prompt` is missing or not a string (anything
`PromptSchema.parse` rejects); `withPrompt s` is `{ "prompt": s }`. -/
inductive ReqBody where
  | malformed
  | withPrompt (s : String)
deriving DecidableEq, Repr

/-- Validation `PromptSchema.parse` (`src/api.ts` lines 25-27, 273):
`z.object({ prompt: z.string() })` — any string, including the empty
string, passes; anything else throws. -/
def parsePrompt : ReqBody → Except Unit String
  | .malformed => .error ()
  | .withPrompt s => .ok s

/-- The `POST /api/prompt` handler (`src/api.ts` lines 270-281): parse
the body and run `interactWithV0` inside one `try`; any throw — parse
failure included — is answered with status 500.  Returns the response
status and whether `interactWithV0` was invoked. -/
def handlePrompt (body : ReqBody) (env : OrchEnv) : Nat × Bool :=
  match parsePrompt body with
  | .error _ => (500, false)
  | .ok _ =>
    match (interactWithV0 env).1 with
    | .ok _ => (200, true)
    | .error _ => (500, true)

/-- Concrete attempt environment: clipboard blank on attempts 0 and 1,
code appears on attempt 2 (the 3rd attempt), with a file-tab action. -/
def clipEnvThird : Nat → AttemptEnv := fun n =>
  if n == 2 then
    ([⟨" file tab login.tsx ", none⟩], Except.ok "export default function Login")
  else ([], Except.ok "")

/-- Concrete attempt environment: the clipboard stays blank (whitespace
on even attempts, a throwing copy on odd attempts). -/
def clipEnvNever : Nat → AttemptEnv := fun n =>
  if n % 2 == 0 then ([], Except.ok "   ") else ([], Except.error ())

/-- Concrete driver environment: no login needed, every operation
succeeds. -/
def envAllOk : OrchEnv where
  initOk := true
  gotoOk := true
  observe1Ok := true
  needsLogin1 := false
  observe2Ok := true
  needsLogin2 := false
  actsOk := true
  credsConfigured := true
  observe3Ok := true
  stillNeedsLogin := false
  fillOk := true
  genClickOk := true
  pollOk := true
  extractOk := true

/-- Concrete driver environment: login markers present but no credential
pair configured; all other operations succeed. -/
def envNoCreds : OrchEnv :=
  { envAllOk with needsLogin1 := true, needsLogin2 := true, credsConfigured := false }

/-- Concrete driver environment: login is required, credentials are
configured, login verification passes, and then polling throws. -/
def envAuthThenPollFails : OrchEnv :=
  { envAllOk with needsLogin1 := true, needsLogin2 := true, pollOk := false }

/-- Concrete driver environment: login is required, credentials are
configured, and post-login verification still shows login markers. -/
def envLoginVerifyFails : OrchEnv :=
  { envAllOk with needsLogin1 := true, needsLogin2 := true, stillNeedsLogin := true }

/-- Concrete page state for the DOM extractor: a code tab is present. -/
def actsWithCodeTab : List ObserveAction :=
  [⟨"Code tab", some "span.code"⟩]

example : containsStr "generation failed" "failed" = true := by decide
example : containsStr "copy code" "copy code" = true := by decide
example : containsStr "sign in" "login" = false := by decide
example : hasError [⟨"Generation Failed", none⟩] = true := by decide
example : isComplete [⟨"Copy Code button", none⟩] = true := by decide

/-- Claim C1: in every poll iteration, if the fetched observable actions
contain both an error/failure marker and a completion marker, the poll
outcome is `failed` (an error is raised), never `completed`: the error
check is decided before the completion check, for every list of
observable actions, in both revisions of the poller. -/
theorem pollErrorPrecedence (actions : List ObserveAction) (probe : Option Bool)
    (he : hasError actions = true) (hc : isComplete actions = true) :
    classifyPoll actions probe = PollOutcome.failed ∧
    classifyPollClip actions = PollOutcome.failed ∧
    classifyPoll actions probe ≠ PollOutcome.completed ∧
    classifyPollClip actions ≠ PollOutcome.completed := by
  refine ⟨?_, ?_, ?_, ?_⟩ <;> simp [classifyPoll, classifyPollClip, he]

/-- Witness for C1 at a page showing both `"Generation failed"` and
`"Copy code"`. -/
theorem pollErrorPrecedenceWitness :
    classifyPoll [⟨"Generation failed", none⟩, ⟨"Copy code", none⟩] (some true) =
      PollOutcome.failed ∧
    classifyPollClip [⟨"Generation failed", none⟩, ⟨"Copy code", none⟩] =
      PollOutcome.failed ∧
    classifyPoll [⟨"Generation failed", none⟩, ⟨"Copy code", none⟩] (some true) ≠
      PollOutcome.completed ∧
    classifyPollClip [⟨"Generation failed", none⟩, ⟨"Copy code", none⟩] ≠
      PollOutcome.completed :=
  pollErrorPrecedence _ (some true) (by decide) (by decide)

theorem classifyPoll_pending {actions : List ObserveAction} {probe : Option Bool}
    (he : hasError actions = false) (hc : isComplete actions = false)
    (hp : probe ≠ some true) :
    classifyPoll actions probe = PollOutcome.pending := by
  have hb : (probe == some true) = false := beq_eq_false_iff_ne.mpr hp
  simp [classifyPoll, he, hc, hb]

theorem classifyPollClip_pending {actions : List ObserveAction}
    (he : hasError actions = false) (hc : isComplete actions = false) :
    classifyPollClip actions = PollOutcome.pending := by
  simp [classifyPollClip, he, hc]

theorem waitAux_no_signal (obs : Nat → List ObserveAction) (probe : Nat → Option Bool)
    (he : ∀ t, hasError (obs t) = false) (hc : ∀ t, isComplete (obs t) = false)
    (hp : ∀ t, probe t ≠ some true) :
    ∀ n k, 1000 * k ≤ MAX_GENERATION_TIME →
      MAX_GENERATION_TIME ≤ 1000 * k + 1000 * n →
      waitForGenerationAux obs probe (1000 * k) =
        (GenResult.TimedOut, MAX_GENERATION_TIME) := by
  intro n
  induction n with
  | zero =>
    intro k h1 h2
    have hk : 1000 * k = MAX_GENERATION_TIME := by omega
    rw [waitForGenerationAux]
    simp [hk]
  | succ n ih =>
    intro k h1 h2
    by_cases hlt : 1000 * k < MAX_GENERATION_TIME
    · rw [waitForGenerationAux]
      simp only [hlt, dif_pos,
        classifyPoll_pending (he (1000 * k)) (hc (1000 * k)) (hp (1000 * k))]
      have hs : 1000 * k + 1000 = 1000 * (k + 1) := by ring
      rw [hs]
      apply ih
      · simp only [MAX_GENERATION_TIME] at hlt ⊢; omega
      · simp only [MAX_GENERATION_TIME] at h2 ⊢; omega
    · have hk : 1000 * k = MAX_GENERATION_TIME := by omega
      rw [waitForGenerationAux]
      simp [hk]

theorem waitClipAux_no_signal (obs : Nat → List ObserveAction)
    (he : ∀ t, hasError (obs t) = false) (hc : ∀ t, isComplete (obs t) = false) :
    ∀ n k, 5000 * k ≤ MAX_GENERATION_TIME →
      MAX_GENERATION_TIME ≤ 5000 * k + 5000 * n →
      waitForGenerationClipAux obs (5000 * k) =
        (GenResult.TimedOut, MAX_GENERATION_TIME) := by
  intro n
  induction n with
  | zero =>
    intro k h1 h2
    have hk : 5000 * k = MAX_GENERATION_TIME := by omega
    rw [waitForGenerationClipAux]
    simp [hk]
  | succ n ih =>
    intro k h1 h2
    by_cases hlt : 5000 * k < MAX_GENERATION_TIME
    · rw [waitForGenerationClipAux]
      simp only [hlt, dif_pos,
        classifyPollClip_pending (he (5000 * k)) (hc (5000 * k))]
      have hs : 5000 * k + 5000 = 5000 * (k + 1) := by ring
      rw [hs]
      apply ih
      · simp only [MAX_GENERATION_TIME] at hlt ⊢; omega
      · simp only [MAX_GENERATION_TIME] at h2 ⊢; omega
    · have hk : 5000 * k = MAX_GENERATION_TIME := by omega
      rw [waitForGenerationClipAux]
      simp [hk]

/-- Claim C2: for every stream of observable actions in which no poll
yields a completion or error marker (and, in the revision with the
fallback probe, the probe never reports visible code), the poller
terminates and returns `TimedOut` with the loop exiting exactly when
elapsed time reaches `MAX_GENERATION_TIME` (180000 ms) — not before and
not after.  Stated for both revisions of `waitForGeneration`. -/
theorem waitForGenerationTimesOut (obs obs2 : Nat → List ObserveAction)
    (probe : Nat → Option Bool)
    (he : ∀ t, hasError (obs t) = false) (hc : ∀ t, isComplete (obs t) = false)
    (hp : ∀ t, probe t ≠ some true)
    (he2 : ∀ t, hasError (obs2 t) = false) (hc2 : ∀ t, isComplete (obs2 t) = false) :
    waitForGeneration obs probe = (GenResult.TimedOut, MAX_GENERATION_TIME) ∧
    waitForGenerationClip obs2 = (GenResult.TimedOut, MAX_GENERATION_TIME) := by
  constructor
  · have := waitAux_no_signal obs probe he hc hp 180 0 (by simp [MAX_GENERATION_TIME])
      (by simp [MAX_GENERATION_TIME])
    simpa [waitForGeneration] using this
  · have := waitClipAux_no_signal obs2 he2 hc2 36 0 (by simp [MAX_GENERATION_TIME])
      (by simp [MAX_GENERATION_TIME])
    simpa [waitForGenerationClip] using this

/-- Witness for C2 on the page stream that always shows a single neutral
"Generating..." action and a probe that always throws. -/
theorem waitForGenerationTimesOutWitness :
    waitForGeneration (fun _ => [⟨"Generating...", none⟩]) (fun _ => none) =
      (GenResult.TimedOut, MAX_GENERATION_TIME) ∧
    waitForGenerationClip (fun _ => [⟨"Generating...", none⟩]) =
      (GenResult.TimedOut, MAX_GENERATION_TIME) :=
  waitForGenerationTimesOut _ _ _ (fun _ => by decide) (fun _ => by decide)
    (fun _ => by simp) (fun _ => by decide) (fun _ => by decide)

theorem extractClipGo_succ (env : Nat → AttemptEnv) :
    ∀ remaining attempts k, attempts ≤ k → k < attempts + remaining →
      (∀ j, attempts ≤ j → j < k → attemptOk (env j) = false) →
      attemptOk (env k) = true →
      ∃ c, (env k).2 = Except.ok c ∧ trimBlank c = false ∧
        extractCodeClipGo env attempts remaining =
          (Except.ok [(extractFilename (env k).1, c)], 2000 * (k - attempts)) := by
  intro remaining
  induction remaining with
  | zero => intro attempts k h1 h2 _ _; omega
  | succ r ih =>
    intro attempts k h1 h2 hbefore hok
    by_cases hak : attempts = k
    · subst hak
      cases hcur : (env attempts).2 with
      | error e => simp [attemptOk, hcur] at hok
      | ok c =>
        have htb : trimBlank c = false := by simpa [attemptOk, hcur] using hok
        refine ⟨c, rfl, htb, ?_⟩
        simp [extractCodeClipGo, hcur, htb]
    · have hlt : attempts < k := by omega
      have hf : attemptOk (env attempts) = false := hbefore attempts le_rfl hlt
      obtain ⟨c, h2', htb, hrec⟩ := ih (attempts + 1) k (by omega) (by omega)
        (fun j hj1 hj2 => hbefore j (by omega) hj2) hok
      refine ⟨c, h2', htb, ?_⟩
      cases hcur : (env attempts).2 with
      | error e =>
        simp [extractCodeClipGo, hcur, hrec, Prod.mk.injEq] <;> omega
      | ok d =>
        have hd : trimBlank d = true := by simpa [attemptOk, hcur] using hf
        simp [extractCodeClipGo, hcur, hd, hrec, Prod.mk.injEq] <;> omega

theorem extractClipGo_exhaust (env : Nat → AttemptEnv) :
    ∀ remaining attempts,
      (∀ j, attempts ≤ j → j < attempts + remaining → attemptOk (env j) = false) →
      extractCodeClipGo env attempts remaining = (Except.error (), 2000 * remaining) := by
  intro remaining
  induction remaining with
  | zero => intro attempts _; simp [extractCodeClipGo]
  | succ r ih =>
    intro attempts hfail
    have hf : attemptOk (env attempts) = false := hfail attempts le_rfl (by omega)
    have hrec := ih (attempts + 1) (fun j hj1 hj2 => hfail j (by omega) (by omega))
    cases hcur : (env attempts).2 with
    | error e =>
      simp [extractCodeClipGo, hcur, hrec, Prod.mk.injEq] <;> omega
    | ok d =>
      have hd : trimBlank d = true := by simpa [attemptOk, hcur] using hf
      simp [extractCodeClipGo, hcur, hd, hrec, Prod.mk.injEq] <;> omega

/-- Claim C3: the clipboard extractor retries the copy+read cycle up to
exactly 5 attempts with a 2000 ms sleep after each failed attempt.  If
the clipboard first yields non-blank content on attempt `k` (0-based,
`k < 5`), extraction succeeds with that content after `2000 * k` ms of
retry sleep; if every one of the 5 attempts yields blank content or
throws, extraction fails, and only after all 5 attempts (10000 ms of
retry sleep). -/
theorem extractCodeClipRetryPolicy :
    (∀ (env : Nat → AttemptEnv) (k : Nat), k < 5 →
      (∀ j, j < k → attemptOk (env j) = false) →
      attemptOk (env k) = true →
      ∃ c, (env k).2 = Except.ok c ∧
        extractCodeClip env =
          (Except.ok [(extractFilename (env k).1, c)], 2000 * k)) ∧
    (∀ env : Nat → AttemptEnv,
      (∀ k, k < 5 → attemptOk (env k) = false) →
      extractCodeClip env = (Except.error (), 10000)) := by
  constructor
  · intro env k hk5 hbefore hok
    obtain ⟨c, h2, _, hres⟩ := extractClipGo_succ env 5 0 k (by omega) (by omega)
      (fun j _ hj => hbefore j hj) hok
    refine ⟨c, h2, ?_⟩
    simpa [extractCodeClip] using hres
  · intro env hfail
    have := extractClipGo_exhaust env 5 0 (fun j _ hj => hfail j (by omega))
    simpa [extractCodeClip] using this

/-- Witness for C3: `clipEnvThird` succeeds on the 3rd attempt (index 2)
with the clipboard content after 4000 ms of retry sleep; `clipEnvNever`
exhausts all 5 attempts and fails after 10000 ms. -/
theorem extractCodeClipRetryPolicyWitness :
    (∃ c, (clipEnvThird 2).2 = Except.ok c ∧
      extractCodeClip clipEnvThird =
        (Except.ok [(extractFilename (clipEnvThird 2).1, c)], 2000 * 2)) ∧
    extractCodeClip clipEnvNever = (Except.error (), 10000) :=
  ⟨extractCodeClipRetryPolicy.1 clipEnvThird 2 (by decide) (by decide) (by decide),
    extractCodeClipRetryPolicy.2 clipEnvNever (by decide)⟩

theorem extractClipGo_shape (env : Nat → AttemptEnv) :
    ∀ remaining attempts m,
      (extractCodeClipGo env attempts remaining).1 = Except.ok m →
      ∃ k c, attempts ≤ k ∧ k < attempts + remaining ∧ (env k).2 = Except.ok c ∧
        trimBlank c = false ∧ m = [(extractFilename (env k).1, c)] := by
  intro remaining
  induction remaining with
  | zero => intro attempts m h; simp [extractCodeClipGo] at h
  | succ r ih =>
    intro attempts m h
    cases hcur : (env attempts).2 with
    | error e =>
      simp only [extractCodeClipGo] at h
      rw [hcur] at h
      simp at h
      obtain ⟨k, c, hk1, hk2, h2, htb, hm⟩ := ih (attempts + 1) m h
      exact ⟨k, c, by omega, by omega, h2, htb, hm⟩
    | ok d =>
      by_cases hd : trimBlank d = true
      · simp only [extractCodeClipGo] at h
        rw [hcur] at h
        simp [hd] at h
        obtain ⟨k, c, hk1, hk2, h2, htb, hm⟩ := ih (attempts + 1) m h
        exact ⟨k, c, by omega, by omega, h2, htb, hm⟩
      · have hd' : trimBlank d = false := by simpa using hd
        simp only [extractCodeClipGo] at h
        rw [hcur] at h
        simp [hd'] at h
        exact ⟨attempts, d, le_rfl, by omega, hcur, hd', h.symm⟩

/-- Claim C10: every successful clipboard extraction returns a mapping
with exactly one entry, whose value is the (non-blank) clipboard content
of the succeeding attempt, keyed by the trimmed label of the first
file-tab-like action of that attempt when one exists and by the fixed
fallback name `code.tsx` otherwise. -/
theorem extractCodeClipSingleton (env : Nat → AttemptEnv)
    (m : List (String × String)) (w : Nat)
    (h : extractCodeClip env = (Except.ok m, w)) :
    m.length = 1 ∧
    ∃ k c, k < 5 ∧ (env k).2 = Except.ok c ∧ trimBlank c = false ∧
      m = [(extractFilename (env k).1, c)] ∧
      (findFileTab (env k).1 = none → m = [("code.tsx", c)]) ∧
      (∀ a, findFileTab (env k).1 = some a → m = [(trimStr a.description, c)]) := by
  have h1 : (extractCodeClipGo env 0 5).1 = Except.ok m := by
    rw [show extractCodeClipGo env 0 5 = (Except.ok m, w) from h]
  obtain ⟨k, c, _, hk5, h2, htb, hm⟩ := extractClipGo_shape env 5 0 m h1
  refine ⟨by simp [hm], k, c, by omega, h2, htb, hm, ?_, ?_⟩
  · intro hnone
    rw [hm]
    simp [extractFilename, hnone]
  · intro a ha
    rw [hm]
    simp [extractFilename, ha]

/-- Witness for C10: the successful extraction of `clipEnvThird` has
exactly one entry, keyed by the trimmed file-tab label. -/
theorem extractCodeClipSingletonWitness :
    ([("file tab login.tsx", "export default function Login")] :
        List (String × String)).length = 1 ∧
    ∃ k c, k < 5 ∧ (clipEnvThird k).2 = Except.ok c ∧ trimBlank c = false ∧
      [("file tab login.tsx", "export default function Login")] =
        [(extractFilename (clipEnvThird k).1, c)] ∧
      (findFileTab (clipEnvThird k).1 = none →
        [("file tab login.tsx", "export default function Login")] = [("code.tsx", c)]) ∧
      (∀ a, findFileTab (clipEnvThird k).1 = some a →
        [("file tab login.tsx", "export default function Login")] =
          [(trimStr a.description, c)]) :=
  extractCodeClipSingleton clipEnvThird _ 4000 rfl

theorem upsert_mem : ∀ (files : List (String × String)) (k v : String)
    (p : String × String), p ∈ upsert files k v → p ∈ files ∨ p.2 = v := by
  intro files
  induction files with
  | nil =>
    intro k v p hp
    simp [upsert] at hp
    right
    rw [hp]
  | cons hd tl ih =>
    intro k v p hp
    obtain ⟨k0, v0⟩ := hd
    simp only [upsert] at hp
    by_cases hk : (k0 == k) = true
    · rw [if_pos hk] at hp
      rcases List.mem_cons.mp hp with h | h
      · right; rw [h]
      · left; exact List.mem_cons_of_mem _ h
    · rw [if_neg hk] at hp
      rcases List.mem_cons.mp hp with h | h
      · left; rw [h]; exact List.mem_cons_self _ _
      · rcases ih k v p h with h' | h'
        · left; exact List.mem_cons_of_mem _ h'
        · right; exact h'

theorem buildFiles_fold_nonblank : ∀ (blocks : List CodeBlock)
    (acc : List (String × String)),
    (∀ p, p ∈ acc → trimBlank p.2 = false) →
    ∀ p, p ∈ blocks.foldl buildStep acc → trimBlank p.2 = false := by
  intro blocks
  induction blocks with
  | nil => intro acc hacc p hp; exact hacc p hp
  | cons b bs ih =>
    intro acc hacc p hp
    refine ih (buildStep acc b) ?_ p hp
    intro q hq
    unfold buildStep at hq
    by_cases hb : trimBlank b.code = true
    · simp [hb] at hq
      exact hacc q hq
    · have hb' : trimBlank b.code = false := by simpa using hb
      simp [hb'] at hq
      rcases upsert_mem acc _ b.code q hq with h | h
      · exact hacc q h
      · rw [h]; exact hb'

/-- Counterexample to C4: on a page whose observed actions do show a code
tab but whose rendered document holds no `pre` elements, the DOM
`extractCode` of `src/api.ts` returns success with an empty mapping —
it does not turn the empty result into a failure. -/
theorem extractCodeDomEmptySuccess :
    extractCodeDom actsWithCodeTab [] = Except.ok [] ∧
    ¬ ∃ p, p ∈ ([] : List (String × String)) := by
  constructor
  · rfl
  · simp

/-- Claim C4 (amended): every entry of a successful DOM extraction has
non-blank code, but the mapping itself may be empty (the zero-entry
check of the claim is absent from `src/api.ts`); the clipboard-revision
extractor does satisfy the full claim: its successful result is
non-empty and every entry is non-blank. -/
theorem extractResultEntriesNonBlank :
    (∀ (actions : List ObserveAction) (blocks : List CodeBlock)
      (m : List (String × String)),
      extractCodeDom actions blocks = Except.ok m →
      ∀ p, p ∈ m → trimBlank p.2 = false) ∧
    (∀ (env : Nat → AttemptEnv) (m : List (String × String)) (w : Nat),
      extractCodeClip env = (Except.ok m, w) →
      m ≠ [] ∧ ∀ p, p ∈ m → trimBlank p.2 = false) := by
  constructor
  · intro actions blocks m hm p hp
    unfold extractCodeDom at hm
    by_cases ht : hasCodeTab actions = true
    · rw [if_pos ht] at hm
      have hbm : m = buildFiles blocks := by
        injection hm with h
        exact h.symm
      rw [hbm] at hp
      exact buildFiles_fold_nonblank blocks [] (by simp) p hp
    · simp [ht] at hm
  · intro env m w hm
    have h1 : (extractCodeClipGo env 0 5).1 = Except.ok m := by
      rw [show extractCodeClipGo env 0 5 = (Except.ok m, w) from hm]
    obtain ⟨k, c, _, _, _, htb, hmm⟩ := extractClipGo_shape env 5 0 m h1
    constructor
    · rw [hmm]; simp
    · intro p hp
      rw [hmm] at hp
      simp at hp
      rw [hp]
      exact htb

/-- Witness for the amended C4: a one-block scrape and the clipboard run
of `clipEnvThird` both yield only non-blank entries. -/
theorem extractResultEntriesNonBlankWitness :
    (∀ p, p ∈ ([("a.tsx", "const a = 1")] : List (String × String)) →
      trimBlank p.2 = false) ∧
    ([("file tab login.tsx", "export default function Login")] ≠
      ([] : List (String × String)) ∧
     ∀ p, p ∈ ([("file tab login.tsx", "export default function Login")] :
        List (String × String)) → trimBlank p.2 = false) :=
  ⟨extractResultEntriesNonBlank.1 actsWithCodeTab [⟨"a.tsx", "const a = 1"⟩]
      [("a.tsx", "const a = 1")] rfl,
    extractResultEntriesNonBlank.2 clipEnvThird
      [("file tab login.tsx", "export default function Login")] 4000 rfl⟩

theorem checkAndLogin_evs (env : OrchEnv) :
    (checkAndLogin env).2 = [] ∨ (checkAndLogin env).2 = [Ev.save] := by
  unfold checkAndLogin
  split_ifs <;> simp

theorem authStep_evs (env : OrchEnv) :
    (authStep env).2 = [] ∨ (authStep env).2 = [Ev.save] := by
  unfold authStep
  split_ifs
  · exact checkAndLogin_evs env
  · left; rfl

theorem interactBody_cases (env : OrchEnv) :
    ((interactBody env).1 = Except.ok () ∧
      (interactBody env).2 = (authStep env).2 ++ [Ev.save]) ∨
    ((interactBody env).1 = Except.error () ∧
      (interactBody env).2 = (authStep env).2) ∨
    ((interactBody env).1 = Except.error () ∧ (interactBody env).2 = []) := by
  unfold interactBody
  cases hg : env.gotoOk with
  | false => simp [hg]
  | true =>
    cases ho : env.observe1Ok with
    | false => simp [hg, ho]
    | true =>
      rcases hA : authStep env with ⟨r, evs⟩
      cases r with
      | error e => simp [hg, ho, hA]
      | ok b =>
        simp only [hg, ho, hA, Bool.not_true, Bool.false_eq_true, if_false]
        split_ifs <;> simp

theorem interactBody_close_free (env : OrchEnv) :
    Ev.close ∉ (interactBody env).2 := by
  rcases interactBody_cases env with ⟨_, h⟩ | ⟨_, h⟩ | ⟨_, h⟩ <;> rw [h] <;>
    rcases authStep_evs env with h' | h' <;> simp_all

/-- Claim C5: once the page driver is acquired (`initStagehand`
succeeded), `interactWithV0` closes it exactly once on every exit path —
whether the run succeeds or authentication, prompt submission, polling,
or extraction throws, the `finally` block performs the single release. -/
theorem driverClosedExactlyOnce (env : OrchEnv) (h : env.initOk = true) :
    (interactWithV0 env).2.count Ev.close = 1 := by
  unfold interactWithV0
  rw [h]
  simp only [Bool.not_true, Bool.false_eq_true, if_false]
  rw [List.count_append]
  rw [List.count_eq_zero.mpr (interactBody_close_free env)]
  rfl

/-- Witness for C5: with every driver operation succeeding, the trace
holds exactly one close; the hypothesis is the successful acquisition. -/
theorem driverClosedExactlyOnceWitness :
    (interactWithV0 envAllOk).2.count Ev.close = 1 :=
  driverClosedExactlyOnce envAllOk rfl

/-- Counterexample to C6: in `envNoCreds` login is required
(`needsLogin1`, `needsLogin2`) and never completed — `checkAndLogin`
returns `false` because no credential pair is configured — yet the
request proceeds and the orchestrator saves the cookie store once after
extraction. -/
theorem cookieSaveDespiteNoLogin :
    envNoCreds.needsLogin1 = true ∧ envNoCreds.needsLogin2 = true ∧
    envNoCreds.credsConfigured = false ∧
    (checkAndLogin envNoCreds).1 = Except.ok false ∧
    (interactWithV0 envNoCreds).2.count Ev.save = 1 := by
  refine ⟨rfl, rfl, rfl, rfl, rfl⟩

theorem checkAndLogin_verify_fail (env : OrchEnv) (h2 : env.needsLogin2 = true)
    (hc : env.credsConfigured = true) (hs : env.stillNeedsLogin = true) :
    checkAndLogin env = (Except.error (), []) := by
  unfold checkAndLogin
  rw [h2, hc, hs]
  split_ifs <;> simp_all

/-- Claim C6 (amended): in every run where login was required, the
credential pair was configured, and post-login verification still showed
login markers, no save of the cookie store occurs at any point during
the request (`checkAndLogin` throws before its save and the
orchestrator's save is unreachable).  When credentials are missing,
however, `checkAndLogin` returns `false` without raising, the request
continues unauthenticated, and a later save is not prevented. -/
theorem noCookieSaveOnFailedLoginVerification (env : OrchEnv)
    (h1 : env.needsLogin1 = true) (h2 : env.needsLogin2 = true)
    (hc : env.credsConfigured = true) (hs : env.stillNeedsLogin = true) :
    (interactWithV0 env).2.count Ev.save = 0 := by
  have hcl := checkAndLogin_verify_fail env h2 hc hs
  have hA : authStep env = (Except.error (), []) := by
    unfold authStep
    rw [h1, if_pos rfl, hcl]
  unfold interactWithV0 interactBody
  rw [hA]
  cases hi : env.initOk with
  | false => rfl
  | true =>
    simp only [Bool.not_true, Bool.false_eq_true, if_false]
    split_ifs <;> rfl

/-- Witness for the amended C6: login verification fails in
`envLoginVerifyFails` and the trace holds no save. -/
theorem noCookieSaveOnFailedLoginVerificationWitness :
    (interactWithV0 envLoginVerifyFails).2.count Ev.save = 0 :=
  noCookieSaveOnFailedLoginVerification envLoginVerifyFails rfl rfl rfl rfl

/-- Counterexample to C7: in `envAuthThenPollFails` the login flow saves
cookies right after successful login verification, then polling throws,
so extraction never happens — yet the trace holds a cookie save.  A
save therefore does not always happen after a successful extraction. -/
theorem cookieSaveBeforeExtraction :
    (interactWithV0 envAuthThenPollFails).1 = Except.error () ∧
    (interactWithV0 envAuthThenPollFails).2 = [Ev.save, Ev.close] := by
  refine ⟨rfl, rfl⟩

theorem checkAndLogin_save_conditions (env : OrchEnv)
    (h : Ev.save ∈ (checkAndLogin env).2) :
    env.observe2Ok = true ∧ env.needsLogin2 = true ∧ env.actsOk = true ∧
    env.credsConfigured = true ∧ env.observe3Ok = true ∧
    env.stillNeedsLogin = false := by
  unfold checkAndLogin at h
  split_ifs at h <;> simp_all

theorem authStep_save_conditions (env : OrchEnv)
    (h : Ev.save ∈ (authStep env).2) : loginVerified env = true := by
  unfold authStep at h
  by_cases h1 : env.needsLogin1 = true
  · rw [if_pos h1] at h
    obtain ⟨a, b, c, d, e, f⟩ := checkAndLogin_save_conditions env h
    simp [loginVerified, h1, a, b, c, d, e, f]
  · rw [if_neg h1] at h
    simp at h

/-- Claim C7 (amended): a cookie save does not always happen after a
successful extraction — `checkAndLogin` saves immediately after
successful login verification, before extraction (see the
counterexample).  What does hold: every save in a request's trace either
follows successful login verification or belongs to a run whose
extraction succeeded, so a saved session implies an authenticated
interaction at save time; and in every successful run the orchestrator's
save is the last event before the driver close, after extraction. -/
theorem cookieSaveImpliesAuthenticated (env : OrchEnv) :
    (Ev.save ∈ (interactWithV0 env).2 →
      loginVerified env = true ∨ (interactWithV0 env).1 = Except.ok ()) ∧
    ((interactWithV0 env).1 = Except.ok () →
      ∃ pre, (interactWithV0 env).2 = pre ++ [Ev.save, Ev.close]) := by
  constructor
  · intro hmem
    unfold interactWithV0 at hmem
    cases hi : env.initOk with
    | false => rw [hi] at hmem; simp at hmem
    | true =>
      rw [hi] at hmem
      simp only [Bool.not_true, Bool.false_eq_true, if_false] at hmem
      rcases List.mem_append.mp hmem with hb | hb
      · rcases interactBody_cases env with ⟨hr, h⟩ | ⟨hr, h⟩ | ⟨hr, h⟩
        · right
          unfold interactWithV0
          rw [hi]
          simpa using hr
        · left
          rw [h] at hb
          exact authStep_save_conditions env hb
        · rw [h] at hb
          simp at hb
      · simp at hb
  · intro hok
    unfold interactWithV0 at hok ⊢
    cases hi : env.initOk with
    | false => rw [hi] at hok; simp at hok
    | true =>
      rw [hi] at hok
      simp only [Bool.not_true, Bool.false_eq_true, if_false] at hok ⊢
      rcases interactBody_cases env with ⟨_, h⟩ | ⟨hr, _⟩ | ⟨hr, _⟩
      · exact ⟨(authStep env).2, by rw [h, List.append_assoc]; rfl⟩
      · rw [hr] at hok; simp at hok
      · rw [hr] at hok; simp at hok

/-- Witness for the amended C7: the save in `envAuthThenPollFails`'s
trace is explained by successful login verification, and the successful
run `envAllOk` ends with save-then-close. -/
theorem cookieSaveImpliesAuthenticatedWitness :
    (loginVerified envAuthThenPollFails = true ∨
      (interactWithV0 envAuthThenPollFails).1 = Except.ok ()) ∧
    ∃ pre, (interactWithV0 envAllOk).2 = pre ++ [Ev.save, Ev.close] :=
  ⟨(cookieSaveImpliesAuthenticated envAuthThenPollFails).1 (by decide),
    (cookieSaveImpliesAuthenticated envAllOk).2 rfl⟩

/-- Counterexample to C8: with login required and no credential pair
configured, `checkAndLogin` returns `false` without raising — no
`LoginFailed` error with reason "no credentials configured" exists in
the code — and the request is not failed: it proceeds and succeeds. -/
theorem noCredsReturnsFalse :
    envNoCreds.needsLogin2 = true ∧ envNoCreds.credsConfigured = false ∧
    checkAndLogin envNoCreds = (Except.ok false, []) ∧
    (interactWithV0 envNoCreds).1 = Except.ok () := by
  refine ⟨rfl, rfl, rfl, rfl⟩

/-- Claim C8 (amended): when login is required but the credential pair is
not fully configured, `checkAndLogin` clicks through the sign-in
affordances and then returns `false` without raising; the flow does not
halt with an error, and the request proceeds. -/
theorem checkAndLoginNoCredsProceeds (env : OrchEnv)
    (ho : env.observe2Ok = true) (hn : env.needsLogin2 = true)
    (ha : env.actsOk = true) (hc : env.credsConfigured = false) :
    checkAndLogin env = (Except.ok false, []) := by
  unfold checkAndLogin
  rw [ho, hn, ha, hc]
  rfl

/-- Witness for the amended C8 at `envNoCreds`. -/
theorem checkAndLoginNoCredsProceedsWitness :
    checkAndLogin envNoCreds = (Except.ok false, []) :=
  checkAndLoginNoCredsProceeds envNoCreds rfl rfl rfl rfl

/-- Counterexample to C9: a malformed request body is answered with
status 500 (the single catch-all), not a 400-class validation error, and
the empty-string prompt passes `PromptSchema.parse` and proceeds to
generation. -/
theorem malformedPromptGets500 :
    handlePrompt ReqBody.malformed envAllOk = (500, false) ∧
    handlePrompt (ReqBody.withPrompt "") envAllOk = (200, true) := by
  refine ⟨rfl, rfl⟩

/-- Claim C9 (amended): a malformed or missing prompt is rejected
without invoking generation but answered with status 500 (not a
400-class status); every string prompt — the empty string included —
passes validation and proceeds to generation, and the response status is
always 200 or 500. -/
theorem promptValidationPolicy :
    (∀ env, handlePrompt ReqBody.malformed env = (500, false)) ∧
    (∀ s env, (handlePrompt (ReqBody.withPrompt s) env).2 = true) ∧
    (∀ s env, (handlePrompt (ReqBody.withPrompt s) env).1 = 200 ∨
      (handlePrompt (ReqBody.withPrompt s) env).1 = 500) := by
  refine ⟨fun env => rfl, fun s env => ?_, fun s env => ?_⟩
  · unfold handlePrompt parsePrompt
    cases h : (interactWithV0 env).1 <;> simp [h]
  · unfold handlePrompt parsePrompt
    cases h : (interactWithV0 env).1 <;> simp [h]

end V0Api
